import Mathlib

/-!
Verification development for the face-api.js input-coercion and
full-pipeline orchestration layer.

The embedding follows the TypeScript sources:
  * `src/src/toNetInput.ts`      — input normalization (`toNetInput`)
  * `src/src/allFacesFactory.ts` — the full-pipeline orchestrator
  * `src/unnamed/part_000`       — declaration of `FaceDetectionNet.locateFaces`

Tensors are modelled by their shape; media elements are opaque handles.
The external networks (detector, landmark, recognizer) are parameters of the
pipeline, exactly as in `allFacesFactory`.
-/

namespace FaceApi

/-- A tensor, modelled by its shape (the only attribute the coercion layer
inspects: `input.shape[0]`, `input.shape.slice(1)`, rank checks). -/
structure Tensor where
  shape : List Nat
  deriving DecidableEq, Repr

/-- An opaque media element (HTMLImageElement / HTMLVideoElement /
HTMLCanvasElement), identified by a handle. -/
structure MediaElement where
  handle : Nat
  deriving DecidableEq, Repr

/-- A raw element of the input union before resolution: a media element, a
tensor, a string identifier, or some unsupported value. -/
inductive RawElement where
  | media (m : MediaElement)
  | tensor (t : Tensor)
  | str (s : String)
  | other
  deriving DecidableEq, Repr

/-- A resolved element: `resolveInput` maps a string identifier through
`document.getElementById`, which yields an element or `null`; every other
value passes through unchanged. -/
inductive ResolvedElement where
  | media (m : MediaElement)
  | tensor (t : Tensor)
  | nullEl
  | other
  deriving DecidableEq, Repr

/-- Modelled from the spec: `resolveInput` (from `./utils`, not under `src/`)
resolves a string identifier to a loaded media element via the document
environment (`env`), returning null when the identifier does not resolve;
non-string values are returned as-is. -/
def resolveInput (env : String → Option MediaElement) : RawElement → ResolvedElement
  | .str s =>
    match env s with
    | some m => .media m
    | none => .nullEl
  | .media m => .media m
  | .tensor t => .tensor t
  | .other => .other

/-- Modelled from the spec: `isMediaElement` (from `./commons/isMediaElement`,
not under `src/`) recognizes media-like objects. -/
def isMediaElement : ResolvedElement → Bool
  | .media _ => true
  | _ => false

/-- Modelled from the spec: `isTensor3D` (from `./commons/isTensor`, not under
`src/`) recognizes tensors of rank 3. -/
def isTensor3D : ResolvedElement → Bool
  | .tensor t => t.shape.length = 3
  | _ => false

/-- Modelled from the spec: `isTensor4D` on a resolved element recognizes
tensors of rank 4. -/
def isTensor4D : ResolvedElement → Bool
  | .tensor t => t.shape.length = 4
  | _ => false

/-- The content wrapped by a `NetInput`: either a single pre-batched tensor or
the list of per-item resolved elements. -/
inductive NetInputContent where
  | batchTensor (t : Tensor)
  | elements (xs : List ResolvedElement)
  deriving DecidableEq, Repr

/-- Modelled from the spec: the canonical batch container `NetInput` (class not
under `src/`): wraps either an array of per-item inputs (flag
`isBatchInput` = "from array") or a single tensor, plus the managed /
caller-owned ownership flag. `new NetInput(x)` leaves `isBatchInput` at its
default `false`; `managed()` sets `isManaged`. -/
structure NetInput where
  content : NetInputContent
  isBatchInput : Bool
  isManaged : Bool
  deriving DecidableEq, Repr

/-- The `afterCreate` closure of `toNetInput`: marks a freshly created
`NetInput` as managed exactly when `manageCreatedInput` is set. -/
def afterCreate (manageCreatedInput : Bool) (netInput : NetInput) : NetInput :=
  if manageCreatedInput then { netInput with isManaged := true } else netInput

/-- The input union `TNetInput`: an existing `NetInput`, a single raw element,
or an array of raw elements. -/
inductive TNetInput where
  | net (n : NetInput)
  | single (e : RawElement)
  | arr (es : List RawElement)
  deriving DecidableEq, Repr

/-- The structured form of the errors thrown by `toNetInput`; each carries the
index hint produced by `getIdxHint`. -/
inductive NetInputError where
  | emptyArray
  | invalidBatchSize (idxHint : String) (batchSize : Nat)
  | unresolvedString (idxHint : String) (id : String)
  | unsupportedType (idxHint : String)
  deriving DecidableEq, Repr

/-- `getIdxHint`: the index fragment of the error messages, present exactly
when the original input was an array. -/
def getIdxHint (isArr : Bool) (idx : Nat) : String :=
  if isArr then " at input index " ++ toString idx ++ ":" else ""

/-- The error produced by the type-check `forEach` when the element at index
`i` fails it, as a function of the original (pre-resolution) element. -/
def typeErrorFor (isArr : Bool) (i : Nat) (orig : RawElement) : NetInputError :=
  match orig with
  | .str s => .unresolvedString (getIdxHint isArr i) s
  | _ => .unsupportedType (getIdxHint isArr i)

/-- Index-aware monadic traversal (left to right, stopping at the first
error), mirroring a JavaScript `map` / `forEach` whose callback may throw. -/
def mapWithIndexM (f : Nat → α → Except ε β) : Nat → List α → Except ε (List β)
  | _, [] => .ok []
  | i, x :: xs =>
    match f i x with
    | .error e => .error e
    | .ok y =>
      match mapWithIndexM f (i + 1) xs with
      | .error e => .error e
      | .ok ys => .ok (y :: ys)

/-- The per-element body of the first `.map` in `toNetInput`: a rank-4 tensor
element must have batch size 1 (else an invalid-batch-size error with the
index hint) and is reshaped to rank 3 by dropping the batch axis; all other
elements pass through. -/
def checkAndReshape (isArr : Bool) (i : Nat) (input : ResolvedElement) :
    Except NetInputError ResolvedElement :=
  match input with
  | .tensor t =>
    if t.shape.length = 4 then
      let batchSize := t.shape.headD 0
      if batchSize ≠ 1 then
        .error (.invalidBatchSize (getIdxHint isArr i) batchSize)
      else
        .ok (.tensor ⟨t.shape.drop 1⟩)
    else .ok input
  | _ => .ok input

/-- The body of the `forEach` type check in `toNetInput`: an element that is
neither media-like nor a rank-3 tensor is rejected; a string original yields
the unresolved-identifier error, anything else the generic type error. -/
def typeCheck (isArr : Bool) (inputArgArray : List RawElement) (i : Nat)
    (input : ResolvedElement) : Except NetInputError Unit :=
  if isMediaElement input || isTensor3D input then .ok ()
  else
    match inputArgArray.getD i .other with
    | .str s => .error (.unresolvedString (getIdxHint isArr i) s)
    | _ => .error (.unsupportedType (getIdxHint isArr i))

/-- The tail of `toNetInput` once the input has been normalized to
`inputArgArray` (with `isArr` recording `Array.isArray(inputs)`): empty-array
check, resolution, batch-size check with reshape, type check, and wrapping. -/
def toNetInputArray (env : String → Option MediaElement) (isArr : Bool)
    (inputArgArray : List RawElement) (manageCreatedInput : Bool) :
    Except NetInputError NetInput :=
  if inputArgArray.isEmpty then .error .emptyArray
  else
    match mapWithIndexM (checkAndReshape isArr) 0
        (inputArgArray.map (resolveInput env)) with
    | .error e => .error e
    | .ok inputArray =>
      match mapWithIndexM (typeCheck isArr inputArgArray) 0 inputArray with
      | .error e => .error e
      | .ok _ =>
        .ok (afterCreate manageCreatedInput
          { content := .elements inputArray, isBatchInput := isArr, isManaged := false })

/-- The embedding of `toNetInput` (`src/src/toNetInput.ts`): an existing
`NetInput` is returned as-is; a single rank-4 tensor is wrapped directly;
otherwise the input is normalized to an array and processed by
`toNetInputArray`. -/
def toNetInput (env : String → Option MediaElement) (inputs : TNetInput)
    (manageCreatedInput : Bool) : Except NetInputError NetInput :=
  match inputs with
  | .net n => .ok n
  | .single (.tensor t) =>
    if t.shape.length = 4 then
      .ok (afterCreate manageCreatedInput
        { content := .batchTensor t, isBatchInput := false, isManaged := false })
    else
      toNetInputArray env false [.tensor t] manageCreatedInput
  | .single e => toNetInputArray env false [e] manageCreatedInput
  | .arr es => toNetInputArray env true es manageCreatedInput

/-- A resolved element is valid when it is a media element, a rank-3 tensor,
or a rank-4 tensor with batch size 1 (which the coercion reduces to rank 3). -/
def validResolved : ResolvedElement → Bool
  | .media _ => true
  | .tensor t => t.shape.length = 3 || (t.shape.length = 4 && t.shape.headD 0 = 1)
  | _ => false

/-- An element of an array input is valid when its resolution is. -/
def validElement (env : String → Option MediaElement) (e : RawElement) : Bool :=
  validResolved (resolveInput env e)

/-- The value a resolved element is reshaped to by the batch-size pass: a
rank-4 tensor loses its leading batch axis, everything else is unchanged. -/
def reshapeElement : ResolvedElement → ResolvedElement
  | .tensor t => if t.shape.length = 4 then .tensor ⟨t.shape.drop 1⟩ else .tensor t
  | r => r

/-- The value an individual valid element of an array input is coerced to. -/
def coerceElement (env : String → Option MediaElement) (e : RawElement) :
    ResolvedElement :=
  reshapeElement (resolveInput env e)

/-- A resolved element passes the batch-size check when it is not a rank-4
tensor with leading dimension different from 1. -/
def noBatchResolved : ResolvedElement → Bool
  | .tensor t => t.shape.length ≠ 4 || t.shape.headD 0 = 1
  | _ => true

/-- An element passes the batch-size check when its resolution does. -/
def noBatchError (env : String → Option MediaElement) (e : RawElement) : Bool :=
  noBatchResolved (resolveInput env e)

/-- Whether a raw element is a rank-4 tensor (the shape that takes the direct
single-input fast path of `toNetInput`). -/
def isRaw4D : RawElement → Bool
  | .tensor t => t.shape.length = 4
  | _ => false

/-- A 2D point (rational coordinates model the floating-point ones). -/
structure Point where
  x : ℚ
  y : ℚ
  deriving DecidableEq, Repr

/-- An axis-aligned rectangle, as returned by `FaceDetection.getBox`. -/
structure Rect where
  x : ℚ
  y : ℚ
  width : ℚ
  height : ℚ
  deriving DecidableEq, Repr

instance : Inhabited Rect := ⟨⟨0, 0, 0, 0⟩⟩

/-- A face detection: confidence score plus bounding box. -/
structure FaceDetection where
  score : ℚ
  box : Rect
  deriving DecidableEq, Repr

instance : Inhabited FaceDetection := ⟨⟨0, ⟨0, 0, 0, 0⟩⟩⟩

/-- `FaceDetection.getBox` returns the bounding box of the detection. -/
def FaceDetection.getBox (d : FaceDetection) : Rect := d.box

/-- A face-landmark set: an ordered sequence of 2D points. -/
structure FaceLandmarks where
  positions : List Point
  deriving DecidableEq, Repr

instance : Inhabited FaceLandmarks := ⟨⟨[]⟩⟩

/-- Modelled from the spec: `FaceLandmarks.shiftByPoint` (class not under
`src/`) shifts every landmark point from the aligned-crop coordinate space
back into the original detection-box coordinate space, i.e. translates each
point by the origin of the box. -/
def FaceLandmarks.shiftByPoint (l : FaceLandmarks) (r : Rect) : FaceLandmarks :=
  ⟨l.positions.map (fun p => ⟨p.x + r.x, p.y + r.y⟩)⟩

/-- A descriptor: a fixed-length numeric vector. -/
def Descriptor : Type := List ℚ

instance : Inhabited Descriptor := ⟨([] : List ℚ)⟩

instance : DecidableEq Descriptor := inferInstanceAs (DecidableEq (List ℚ))

/-- The terminal per-face result object. -/
structure FullFaceDescription where
  detection : FaceDetection
  landmarks : FaceLandmarks
  descriptor : Descriptor
  deriving DecidableEq

instance : Inhabited FullFaceDescription := ⟨⟨default, default, default⟩⟩

/-- A crop tensor produced by `extractFaceTensors`: an allocation identity
(`id`), the source input it was cropped from, and the crop box. -/
structure FaceTensor (ι : Type) where
  id : Nat
  src : ι
  box : Rect
  deriving DecidableEq

/-- Pure positional map with indices (the `(x, i) => ...` callback form of
JavaScript `Array.prototype.map`). -/
def mapWithIndexAux (f : Nat → α → β) : Nat → List α → List β
  | _, [] => []
  | i, x :: xs => f i x :: mapWithIndexAux f (i + 1) xs

/-- Positional map with indices starting at 0. -/
def mapWithIndex (f : Nat → α → β) (xs : List α) : List β :=
  mapWithIndexAux f 0 xs

/-- Modelled from the spec: `extractFaceTensors` (not under `src/`) extracts
one cropped tensor per box from the original input. Crops are fresh
allocations; `nextId` gives them distinct identities for tracking the
dispose calls of `allFacesFactory`. -/
def extractFaceTensors (input : ι) (boxes : List Rect) (nextId : Nat) :
    List (FaceTensor ι) :=
  mapWithIndex (fun i b => ⟨nextId + i, input, b⟩) boxes

/-- The pipeline stages whose completion the tensor-event trace records. -/
inductive Stage where
  | detect
  | landmark
  | recognize
  deriving DecidableEq, Repr

/-- Events of the resource trace: tensor allocation, tensor disposal
(`t.dispose()`), and stage completion. -/
inductive TensorEvent where
  | alloc (id : Nat)
  | dispose (id : Nat)
  | stageDone (s : Stage)
  deriving DecidableEq, Repr

/-- Fail-fast monadic map (the semantics of awaiting each promise of a
`Promise.all` over independent per-face calls: on success the results are in
input order; any rejection rejects the whole batch). -/
def mapMExcept (f : α → Except ε β) : List α → Except ε (List β)
  | [] => .ok []
  | x :: xs =>
    match f x with
    | .error e => .error e
    | .ok y =>
      match mapMExcept f xs with
      | .error e => .error e
      | .ok ys => .ok (y :: ys)

/-- The raw crops of the pipeline: `extractFaceTensors(input, detections)`,
one crop per detection box, ids starting at 0. -/
def rawCrops (input : ι) (detections : List FaceDetection) : List (FaceTensor ι) :=
  extractFaceTensors input (detections.map FaceDetection.getBox) 0

/-- The aligned boxes of the pipeline:
`faceLandmarksByFace.map((landmarks, i) => landmarks.align(detections[i].getBox()))`.
The alignment algorithm itself is an external capability and is therefore a
parameter. -/
def alignedBoxes (align : FaceLandmarks → Rect → Rect)
    (detections : List FaceDetection) (faceLandmarksByFace : List FaceLandmarks) :
    List Rect :=
  mapWithIndex (fun i landmarks => align landmarks (detections.getD i default).getBox)
    faceLandmarksByFace

/-- The aligned crops of the pipeline:
`extractFaceTensors(input, alignedFaceBoxes)`, with ids fresh after the raw
crops. -/
def alignedCrops (align : FaceLandmarks → Rect → Rect) (input : ι)
    (detections : List FaceDetection) (faceLandmarksByFace : List FaceLandmarks) :
    List (FaceTensor ι) :=
  extractFaceTensors input (alignedBoxes align detections faceLandmarksByFace)
    (rawCrops input detections).length

/-- The embedding of the async function returned by `allFacesFactory`
(`src/src/allFacesFactory.ts`). The three networks and the external alignment
capability are parameters; the first component of the result is the trace of
tensor allocations, disposals and stage completions, the second the value or
the propagated stage error. -/
def allFaces (locateFaces : ι → ℚ → Except ε (List FaceDetection))
    (detectLandmarks : List (FaceTensor ι) → Except ε (List FaceLandmarks))
    (computeFaceDescriptor : FaceTensor ι → Except ε Descriptor)
    (align : FaceLandmarks → Rect → Rect)
    (input : ι) (minConfidence : ℚ) :
    List TensorEvent × Except ε (List FullFaceDescription) :=
  match locateFaces input minConfidence with
  | .error e => ([], .error e)
  | .ok detections =>
    let faceTensors := rawCrops input detections
    let trace1 := TensorEvent.stageDone .detect ::
      faceTensors.map (fun t => TensorEvent.alloc t.id)
    match detectLandmarks faceTensors with
    | .error e => (trace1, .error e)
    | .ok faceLandmarksByFace =>
      let trace2 := trace1 ++ TensorEvent.stageDone .landmark ::
        faceTensors.map (fun t => TensorEvent.dispose t.id)
      let alignedFaceTensors := alignedCrops align input detections faceLandmarksByFace
      let trace3 := trace2 ++ alignedFaceTensors.map (fun t => TensorEvent.alloc t.id)
      match mapMExcept computeFaceDescriptor alignedFaceTensors with
      | .error e => (trace3, .error e)
      | .ok descriptors =>
        let trace4 := trace3 ++ TensorEvent.stageDone .recognize ::
          alignedFaceTensors.map (fun t => TensorEvent.dispose t.id)
        (trace4, .ok (mapWithIndex (fun i detection =>
          { detection := detection
            landmarks := (faceLandmarksByFace.getD i default).shiftByPoint detection.getBox
            descriptor := descriptors.getD i default }) detections))

/-- Calling the pipeline function with a third argument: the function returned
by `allFacesFactory` declares exactly two parameters (`input`,
`minConfidence`), so by JavaScript call semantics any `maxResults` argument
is ignored. -/
def allFacesWithMaxResults (locateFaces : ι → ℚ → Except ε (List FaceDetection))
    (detectLandmarks : List (FaceTensor ι) → Except ε (List FaceLandmarks))
    (computeFaceDescriptor : FaceTensor ι → Except ε Descriptor)
    (align : FaceLandmarks → Rect → Rect)
    (input : ι) (minConfidence : ℚ) (_maxResults : Option Nat) :
    List TensorEvent × Except ε (List FullFaceDescription) :=
  allFaces locateFaces detectLandmarks computeFaceDescriptor align input minConfidence

/-- Stable insertion (descending by score): the inserted detection goes in
front of the first element whose score does not exceed it, so an element
earlier in the input precedes later elements of equal score. -/
def insertDesc (d : FaceDetection) : List FaceDetection → List FaceDetection
  | [] => [d]
  | x :: xs => if x.score ≤ d.score then d :: x :: xs else x :: insertDesc d xs

/-- Stable sort of detections by descending score. -/
def sortDesc : List FaceDetection → List FaceDetection
  | [] => []
  | x :: xs => insertDesc x (sortDesc xs)

/-- Modelled from the spec: `FaceDetectionNet.locateFaces` (implementation not
under `src/`; declaration in `src/unnamed/part_000`) returns, per call, the
candidate detections filtered by the minimum-confidence threshold, sorted by
descending confidence with input-order tie-break, and truncated to
`maxResults` when provided. -/
def locateFacesModel (candidates : List FaceDetection) (minConfidence : ℚ)
    (maxResults : Option Nat) : List FaceDetection :=
  let filtered := candidates.filter (fun d => minConfidence ≤ d.score)
  let sorted := sortDesc filtered
  match maxResults with
  | some k => sorted.take k
  | none => sorted

/-! Concrete stage instances used to exercise the pipeline on closed inputs. -/

/-- A detector returning a single detection with confidence 1. -/
def wLocate : Unit → ℚ → Except Unit (List FaceDetection) :=
  fun _ _ => .ok [{ score := 1, box := { x := 0, y := 0, width := 2, height := 2 } }]

/-- A landmark network returning one fixed single-point landmark set. -/
def wLandmark : List (FaceTensor Unit) → Except Unit (List FaceLandmarks) :=
  fun _ => .ok [⟨[{ x := 1, y := 1 }]⟩]

/-- A recognizer returning a fixed one-entry descriptor. -/
def wDescriptor : FaceTensor Unit → Except Unit Descriptor :=
  fun _ => .ok [5]

/-- An alignment that returns the detection box unchanged. -/
def wAlign : FaceLandmarks → Rect → Rect := fun _ b => b

/-- The detection list produced by `wLocate`. -/
def wDetections : List FaceDetection :=
  [{ score := 1, box := { x := 0, y := 0, width := 2, height := 2 } }]

/-- The landmark list produced by `wLandmark`. -/
def wLms : List FaceLandmarks := [⟨[{ x := 1, y := 1 }]⟩]

/-- The descriptor list produced by `wDescriptor` on one crop. -/
def wDescs : List Descriptor := [[5]]

/-- A detector returning two detections (confidences 2 and 1). -/
def w2Locate : Unit → ℚ → Except Unit (List FaceDetection) :=
  fun _ _ => .ok
    [{ score := 2, box := { x := 0, y := 0, width := 1, height := 1 } },
     { score := 1, box := { x := 1, y := 0, width := 1, height := 1 } }]

/-- A landmark network returning one empty landmark set per crop. -/
def w2Landmark : List (FaceTensor Unit) → Except Unit (List FaceLandmarks) :=
  fun ts => .ok (ts.map (fun _ => ⟨[]⟩))

/-! ## Helper lemmas -/

theorem mapWithIndexM_ok_length (f : Nat → α → Except ε β) (xs : List α) :
    ∀ (s : Nat) (ys : List β), mapWithIndexM f s xs = .ok ys → ys.length = xs.length := by
  induction xs with
  | nil =>
    intro s ys h
    simp only [mapWithIndexM, Except.ok.injEq] at h
    subst h; rfl
  | cons x xs ih =>
    intro s ys h
    simp only [mapWithIndexM] at h
    cases hf : f s x <;> rw [hf] at h
    · exact absurd h (by simp)
    case ok y =>
      cases hr : mapWithIndexM f (s + 1) xs <;> rw [hr] at h
      · exact absurd h (by simp)
      case ok zs =>
        simp only [Except.ok.injEq] at h
        subst h
        simp [ih (s + 1) zs hr]

theorem mapWithIndexM_ok_getD (f : Nat → α → Except ε β) (xs : List α) :
    ∀ (s : Nat) (ys : List β), mapWithIndexM f s xs = .ok ys →
      ∀ (k : Nat), k < xs.length → ∀ (dx : α) (dy : β),
        f (s + k) (xs.getD k dx) = .ok (ys.getD k dy) := by
  induction xs with
  | nil =>
    intro s ys _ k hk
    simp at hk
  | cons x xs ih =>
    intro s ys h k hk dx dy
    simp only [mapWithIndexM] at h
    cases hf : f s x <;> rw [hf] at h
    · exact absurd h (by simp)
    case ok y =>
      cases hr : mapWithIndexM f (s + 1) xs <;> rw [hr] at h
      · exact absurd h (by simp)
      case ok zs =>
        simp only [Except.ok.injEq] at h
        subst h
        cases k with
        | zero => simpa using hf
        | succ k =>
          have hrec := ih (s + 1) zs hr k (by simpa using hk) dx dy
          have harith : s + 1 + k = s + (k + 1) := by omega
          rw [harith] at hrec
          simpa using hrec

theorem mapWithIndexM_first_error (f : Nat → α → Except ε β) (xs : List α) :
    ∀ (s k : Nat) (dx : α) (e : ε), k < xs.length →
      (∀ j, j < k → ∃ y, f (s + j) (xs.getD j dx) = .ok y) →
      f (s + k) (xs.getD k dx) = .error e →
      mapWithIndexM f s xs = .error e := by
  induction xs with
  | nil =>
    intro s k dx e hk
    simp at hk
  | cons x xs ih =>
    intro s k dx e hk hok herr
    cases k with
    | zero =>
      have hx : f s x = .error e := by simpa using herr
      simp only [mapWithIndexM, hx]
    | succ k =>
      obtain ⟨y, hy⟩ := hok 0 (Nat.succ_pos k)
      have hx : f s x = .ok y := by simpa using hy
      have hok' : ∀ j, j < k → ∃ z, f (s + 1 + j) (xs.getD j dx) = .ok z := by
        intro j hj
        obtain ⟨z, hz⟩ := hok (j + 1) (by omega)
        refine ⟨z, ?_⟩
        have harith : s + (j + 1) = s + 1 + j := by omega
        rw [harith] at hz
        simpa using hz
      have herr' : f (s + 1 + k) (xs.getD k dx) = .error e := by
        have harith : s + (k + 1) = s + 1 + k := by omega
        rw [harith] at herr
        simpa using herr
      have hrec := ih (s + 1) k dx e (by simpa using hk) hok' herr'
      simp only [mapWithIndexM, hx, hrec]

theorem mapWithIndexM_congr_ok (f : Nat → α → Except ε β) (g : α → β) (xs : List α)
    (h : ∀ x ∈ xs, ∀ i, f i x = .ok (g x)) :
    ∀ (s : Nat), mapWithIndexM f s xs = .ok (xs.map g) := by
  induction xs with
  | nil => intro s; rfl
  | cons x xs ih =>
    intro s
    have hx : f s x = .ok (g x) := h x (List.mem_cons_self x xs) s
    have hr : mapWithIndexM f (s + 1) xs = .ok (xs.map g) :=
      ih (fun z hz i => h z (List.mem_cons_of_mem x hz) i) (s + 1)
    simp only [mapWithIndexM, hx, hr, List.map_cons]

theorem getD_map_of_lt (f : α → β) (xs : List α) :
    ∀ (k : Nat) (dx : α) (db : β), k < xs.length →
      (xs.map f).getD k db = f (xs.getD k dx) := by
  induction xs with
  | nil =>
    intro k dx db hk
    simp at hk
  | cons x xs ih =>
    intro k dx db hk
    cases k with
    | zero => simp
    | succ k => simpa using ih k dx db (by simpa using hk)

theorem afterCreate_mk (m : Bool) (c : NetInputContent) (b : Bool) :
    afterCreate m { content := c, isBatchInput := b, isManaged := false } =
      { content := c, isBatchInput := b, isManaged := m } := by
  cases m <;> simp [afterCreate]

theorem afterCreate_content (m : Bool) (n : NetInput) :
    (afterCreate m n).content = n.content := by
  cases m <;> simp [afterCreate]

theorem checkAndReshape_ok_of_valid (r : ResolvedElement) (hv : validResolved r = true)
    (isArr : Bool) (i : Nat) :
    checkAndReshape isArr i r = .ok (reshapeElement r) := by
  cases r with
  | media m => rfl
  | tensor t =>
    simp only [validResolved, Bool.or_eq_true, Bool.and_eq_true, decide_eq_true_eq] at hv
    by_cases h4 : t.shape.length = 4
    · have hb : t.shape.headD 0 = 1 := by
        rcases hv with h3 | ⟨_, hb⟩
        · omega
        · exact hb
      have hb' : t.shape.head?.getD 0 = 1 := by simpa using hb
      simp [checkAndReshape, reshapeElement, h4, hb']
    · simp [checkAndReshape, reshapeElement, h4]
  | nullEl => simp [validResolved] at hv
  | other => simp [validResolved] at hv

theorem reshapeElement_valid_mediaOr3D (r : ResolvedElement)
    (hv : validResolved r = true) :
    (isMediaElement (reshapeElement r) || isTensor3D (reshapeElement r)) = true := by
  cases r with
  | media m => rfl
  | tensor t =>
    simp only [validResolved, Bool.or_eq_true, Bool.and_eq_true, decide_eq_true_eq] at hv
    by_cases h4 : t.shape.length = 4
    · simp only [reshapeElement, h4, if_pos]
      simp [isMediaElement, isTensor3D, List.length_drop, h4]
    · rcases hv with h3 | ⟨h4', _⟩
      · simp [reshapeElement, h4, isMediaElement, isTensor3D, h3]
      · exact absurd h4' h4
  | nullEl => simp [validResolved] at hv
  | other => simp [validResolved] at hv

theorem typeCheck_ok (isArr : Bool) (args : List RawElement) (i : Nat)
    (r : ResolvedElement) (h : (isMediaElement r || isTensor3D r) = true) :
    typeCheck isArr args i r = .ok () := by
  simp [typeCheck, h]

theorem typeCheck_error (isArr : Bool) (args : List RawElement) (i : Nat)
    (r : ResolvedElement) (hm : isMediaElement r = false) (h3 : isTensor3D r = false) :
    typeCheck isArr args i r = .error (typeErrorFor isArr i (args.getD i .other)) := by
  unfold typeCheck typeErrorFor
  rw [if_neg (by simp [hm, h3])]
  cases args.getD i RawElement.other <;> rfl

theorem checkAndReshape_ok_of_noBatch (r : ResolvedElement)
    (hv : noBatchResolved r = true) (isArr : Bool) (i : Nat) :
    ∃ y, checkAndReshape isArr i r = .ok y := by
  cases r with
  | media m => exact ⟨.media m, rfl⟩
  | tensor t =>
    simp only [noBatchResolved, Bool.or_eq_true, decide_eq_true_eq, ne_eq,
      decide_not, Bool.not_eq_true', decide_eq_false_iff_not] at hv
    by_cases h4 : t.shape.length = 4
    · have hb : t.shape.headD 0 = 1 := by
        rcases hv with h | hb
        · exact absurd h4 h
        · exact hb
      have hb' : t.shape.head?.getD 0 = 1 := by simpa using hb
      exact ⟨.tensor ⟨t.shape.drop 1⟩, by simp [checkAndReshape, h4, hb']⟩
    · exact ⟨.tensor t, by simp [checkAndReshape, h4]⟩
  | nullEl => exact ⟨.nullEl, rfl⟩
  | other => exact ⟨.other, rfl⟩

theorem checkAndReshape_not4D (r : ResolvedElement) (h : isTensor4D r = false)
    (isArr : Bool) (i : Nat) : checkAndReshape isArr i r = .ok r := by
  cases r with
  | tensor t =>
    simp only [isTensor4D, decide_eq_false_iff_not] at h
    simp [checkAndReshape, h]
  | media m => rfl
  | nullEl => rfl
  | other => rfl

theorem isTensor4D_resolve_of_not4D (env : String → Option MediaElement)
    (e : RawElement) (h : isRaw4D e = false) :
    isTensor4D (resolveInput env e) = false := by
  cases e with
  | tensor t =>
    simp only [isRaw4D] at h
    simpa [resolveInput, isTensor4D] using h
  | media m => rfl
  | str s =>
    simp only [resolveInput]
    cases env s <;> rfl
  | other => rfl

theorem toNetInput_single_not4D (env : String → Option MediaElement)
    (e : RawElement) (m : Bool) (h : isRaw4D e = false) :
    toNetInput env (.single e) m = toNetInputArray env false [e] m := by
  cases e with
  | tensor t =>
    simp only [isRaw4D, decide_eq_false_iff_not] at h
    simp [toNetInput, h]
  | media m' => rfl
  | str s => rfl
  | other => rfl

theorem isEmpty_false_of_ne_nil {xs : List α} (h : xs ≠ []) : xs.isEmpty = false := by
  cases xs with
  | nil => exact absurd rfl h
  | cons x xs => rfl

theorem toNetInputArray_ok (env : String → Option MediaElement) (isArr : Bool)
    (es : List RawElement) (m : Bool) (xs : List ResolvedElement)
    (hne : es ≠ [])
    (h1 : mapWithIndexM (checkAndReshape isArr) 0 (es.map (resolveInput env)) = .ok xs)
    (h2 : ∀ x ∈ xs, (isMediaElement x || isTensor3D x) = true) :
    toNetInputArray env isArr es m =
      .ok { content := .elements xs, isBatchInput := isArr, isManaged := m } := by
  have hemp := isEmpty_false_of_ne_nil hne
  have h2' : mapWithIndexM (typeCheck isArr es) 0 xs = .ok (xs.map (fun _ => ())) :=
    mapWithIndexM_congr_ok _ (fun _ => ()) xs (fun x hx i => typeCheck_ok isArr es i x (h2 x hx)) 0
  simp [toNetInputArray, hemp, h1, h2', afterCreate_mk]

theorem toNetInputArray_error1 (env : String → Option MediaElement) (isArr : Bool)
    (es : List RawElement) (m : Bool) (e : NetInputError)
    (hne : es ≠ [])
    (h1 : mapWithIndexM (checkAndReshape isArr) 0 (es.map (resolveInput env)) = .error e) :
    toNetInputArray env isArr es m = .error e := by
  have hemp := isEmpty_false_of_ne_nil hne
  simp [toNetInputArray, hemp, h1]

theorem toNetInputArray_error2 (env : String → Option MediaElement) (isArr : Bool)
    (es : List RawElement) (m : Bool) (xs : List ResolvedElement) (e : NetInputError)
    (hne : es ≠ [])
    (h1 : mapWithIndexM (checkAndReshape isArr) 0 (es.map (resolveInput env)) = .ok xs)
    (h2 : mapWithIndexM (typeCheck isArr es) 0 xs = .error e) :
    toNetInputArray env isArr es m = .error e := by
  have hemp := isEmpty_false_of_ne_nil hne
  simp [toNetInputArray, hemp, h1, h2]

theorem toNetInputArray_ok_inv (env : String → Option MediaElement) (isArr : Bool)
    (es : List RawElement) (m : Bool) (n : NetInput)
    (h : toNetInputArray env isArr es m = .ok n) :
    ∃ xs, mapWithIndexM (checkAndReshape isArr) 0 (es.map (resolveInput env)) = .ok xs ∧
      n.content = .elements xs := by
  unfold toNetInputArray at h
  split at h
  · exact absurd h (by simp)
  · split at h
    · exact absurd h (by simp)
    · rename_i xs hres
      split at h
      · exact absurd h (by simp)
      · rename_i us htc
        simp only [Except.ok.injEq] at h
        subst h
        exact ⟨xs, hres, by rw [afterCreate_content]⟩

theorem mapWithIndexAux_length (f : Nat → α → β) :
    ∀ (xs : List α) (s : Nat), (mapWithIndexAux f s xs).length = xs.length := by
  intro xs
  induction xs with
  | nil => intro s; rfl
  | cons x xs ih =>
    intro s
    simp [mapWithIndexAux, ih]

theorem mapWithIndex_length (f : Nat → α → β) (xs : List α) :
    (mapWithIndex f xs).length = xs.length := mapWithIndexAux_length f xs 0

theorem mapWithIndexAux_getD (f : Nat → α → β) :
    ∀ (xs : List α) (s k : Nat) (da : α) (db : β), k < xs.length →
      (mapWithIndexAux f s xs).getD k db = f (s + k) (xs.getD k da) := by
  intro xs
  induction xs with
  | nil =>
    intro s k da db hk
    simp at hk
  | cons x xs ih =>
    intro s k da db hk
    cases k with
    | zero => simp [mapWithIndexAux]
    | succ k =>
      have := ih (s + 1) k da db (by simpa using hk)
      have harith : s + 1 + k = s + (k + 1) := by omega
      rw [harith] at this
      simpa [mapWithIndexAux] using this

theorem mapWithIndex_getD (f : Nat → α → β) (xs : List α) (k : Nat) (da : α) (db : β)
    (hk : k < xs.length) :
    (mapWithIndex f xs).getD k db = f k (xs.getD k da) := by
  have := mapWithIndexAux_getD f xs 0 k da db hk
  simpa using this

theorem mapMExcept_ok_length (f : α → Except ε β) :
    ∀ (xs : List α) (ys : List β), mapMExcept f xs = .ok ys → ys.length = xs.length := by
  intro xs
  induction xs with
  | nil =>
    intro ys h
    simp only [mapMExcept, Except.ok.injEq] at h
    subst h; rfl
  | cons x xs ih =>
    intro ys h
    simp only [mapMExcept] at h
    cases hf : f x <;> rw [hf] at h
    · exact absurd h (by simp)
    case ok y =>
      cases hr : mapMExcept f xs <;> rw [hr] at h
      · exact absurd h (by simp)
      case ok zs =>
        simp only [Except.ok.injEq] at h
        subst h
        simp [ih zs hr]

theorem mapMExcept_ok_getD (f : α → Except ε β) :
    ∀ (xs : List α) (ys : List β), mapMExcept f xs = .ok ys →
      ∀ (k : Nat), k < xs.length → ∀ (dx : α) (dy : β),
        f (xs.getD k dx) = .ok (ys.getD k dy) := by
  intro xs
  induction xs with
  | nil =>
    intro ys _ k hk
    simp at hk
  | cons x xs ih =>
    intro ys h k hk dx dy
    simp only [mapMExcept] at h
    cases hf : f x <;> rw [hf] at h
    · exact absurd h (by simp)
    case ok y =>
      cases hr : mapMExcept f xs <;> rw [hr] at h
      · exact absurd h (by simp)
      case ok zs =>
        simp only [Except.ok.injEq] at h
        subst h
        cases k with
        | zero => simpa using hf
        | succ k => simpa using ih zs hr k (by simpa using hk) dx dy

theorem extractFaceTensors_length (input : ι) (boxes : List Rect) (s : Nat) :
    (extractFaceTensors input boxes s).length = boxes.length :=
  mapWithIndex_length _ boxes

theorem extractFaceTensors_getD (input : ι) (boxes : List Rect) (s k : Nat)
    (d : FaceTensor ι) (hk : k < boxes.length) :
    (extractFaceTensors input boxes s).getD k d = ⟨s + k, input, boxes.getD k default⟩ :=
  mapWithIndex_getD _ boxes k default d hk

theorem count_ids_extractAux (input : ι) (s : Nat) :
    ∀ (boxes : List Rect) (j q : Nat),
      ((mapWithIndexAux (fun i b => (⟨s + i, input, b⟩ : FaceTensor ι)) j boxes).map
        FaceTensor.id).count q =
      if s + j ≤ q ∧ q < s + j + boxes.length then 1 else 0 := by
  intro boxes
  induction boxes with
  | nil =>
    intro j q
    simp only [mapWithIndexAux, List.map_nil, List.count_nil, List.length_nil, Nat.add_zero]
    rw [if_neg (by omega)]
  | cons b bs ih =>
    intro j q
    have hcons : (mapWithIndexAux (fun i b => (⟨s + i, input, b⟩ : FaceTensor ι)) j
          (b :: bs)).map FaceTensor.id =
        (s + j) :: (mapWithIndexAux (fun i b => (⟨s + i, input, b⟩ : FaceTensor ι)) (j + 1)
          bs).map FaceTensor.id := rfl
    rw [hcons, List.count_cons, ih (j + 1)]
    simp only [List.length_cons, beq_iff_eq]
    split_ifs <;> omega

theorem count_ids_extract (input : ι) (boxes : List Rect) (s q : Nat) :
    ((extractFaceTensors input boxes s).map FaceTensor.id).count q =
      if s ≤ q ∧ q < s + boxes.length then 1 else 0 := by
  have := count_ids_extractAux input s boxes 0 q
  simpa using this

theorem count_allocs_of_map (l : List (FaceTensor ι)) (j : Nat) :
    (l.map (fun t => TensorEvent.alloc t.id)).count (.alloc j) =
      (l.map FaceTensor.id).count j := by
  induction l with
  | nil => rfl
  | cons x xs ih => simp [List.count_cons, ih]

theorem count_disposes_of_map (l : List (FaceTensor ι)) (j : Nat) :
    (l.map (fun t => TensorEvent.dispose t.id)).count (.dispose j) =
      (l.map FaceTensor.id).count j := by
  induction l with
  | nil => rfl
  | cons x xs ih => simp [List.count_cons, ih]

theorem count_alloc_in_disposes (l : List (FaceTensor ι)) (j : Nat) :
    (l.map (fun t => TensorEvent.dispose t.id)).count (.alloc j) = 0 := by
  induction l with
  | nil => rfl
  | cons x xs ih => simp [List.count_cons, ih]

theorem count_dispose_in_allocs (l : List (FaceTensor ι)) (j : Nat) :
    (l.map (fun t => TensorEvent.alloc t.id)).count (.dispose j) = 0 := by
  induction l with
  | nil => rfl
  | cons x xs ih => simp [List.count_cons, ih]

theorem allFaces_ok (locateFaces : ι → ℚ → Except ε (List FaceDetection))
    (detectLandmarks : List (FaceTensor ι) → Except ε (List FaceLandmarks))
    (computeFaceDescriptor : FaceTensor ι → Except ε Descriptor)
    (align : FaceLandmarks → Rect → Rect)
    (input : ι) (minConfidence : ℚ)
    (detections : List FaceDetection) (lms : List FaceLandmarks) (descs : List Descriptor)
    (hdet : locateFaces input minConfidence = .ok detections)
    (hlm : detectLandmarks (rawCrops input detections) = .ok lms)
    (hdesc : mapMExcept computeFaceDescriptor (alignedCrops align input detections lms) =
      .ok descs) :
    allFaces locateFaces detectLandmarks computeFaceDescriptor align input minConfidence =
      (TensorEvent.stageDone .detect ::
        ((rawCrops input detections).map (fun t => TensorEvent.alloc t.id) ++
          TensorEvent.stageDone .landmark ::
            ((rawCrops input detections).map (fun t => TensorEvent.dispose t.id) ++
              ((alignedCrops align input detections lms).map (fun t => TensorEvent.alloc t.id) ++
                TensorEvent.stageDone .recognize ::
                  (alignedCrops align input detections lms).map
                    (fun t => TensorEvent.dispose t.id)))),
        .ok (mapWithIndex (fun i detection =>
          { detection := detection
            landmarks := (lms.getD i default).shiftByPoint detection.getBox
            descriptor := descs.getD i default }) detections)) := by
  simp [allFaces, hdet, hlm, hdesc]

/-! ## Claim theorems -/

/-- C3: for every `NetInput` instance `n` and every boolean flag `m`,
`toNetInput` applied to `n` returns the very same instance `n` unchanged —
in particular it is idempotent on its own output and `m = true` does not mark
an existing `NetInput` as managed. -/
theorem c3_netinput_identity (env : String → Option MediaElement)
    (n : NetInput) (m : Bool) :
    toNetInput env (.net n) m = .ok n := rfl

/-- C6: `toNetInput` applied to an empty array always fails with the
empty-input error, for every environment and both values of the
`manageCreatedInput` flag. -/
theorem c6_empty_array (env : String → Option MediaElement) (m : Bool) :
    toNetInput env (.arr []) m = .error .emptyArray := rfl

/-- C10: a rank-4 tensor passed as a single non-array input is accepted with
no batch-size validation at all: it is wrapped directly into a `NetInput`
(managed according to the flag), regardless of its leading batch
dimension, skipping the element type check. -/
theorem c10_single_tensor4d_unvalidated (env : String → Option MediaElement)
    (t : Tensor) (m : Bool) (h4 : t.shape.length = 4) :
    toNetInput env (.single (.tensor t)) m =
      .ok { content := .batchTensor t, isBatchInput := false, isManaged := m } := by
  simp [toNetInput, h4, afterCreate_mk]

/-- Witness for C10: a tensor of shape `[5, 2, 2, 3]` — batch size 5 — is
accepted unchanged as a single input, and the managed flag is set. -/
theorem c10_single_tensor4d_unvalidated_witness :
    (Tensor.mk [5, 2, 2, 3]).shape.length = 4 ∧
      toNetInput (fun _ => none) (.single (.tensor ⟨[5, 2, 2, 3]⟩)) true =
        .ok { content := .batchTensor ⟨[5, 2, 2, 3]⟩, isBatchInput := false,
              isManaged := true } :=
  ⟨by decide, c10_single_tensor4d_unvalidated (fun _ => none) ⟨[5, 2, 2, 3]⟩ true (by decide)⟩

/-- C7: a valid array input of length N is coerced to a `NetInput` wrapping
exactly the N resolved per-item elements in input order with the from-array
flag set to true; a valid single non-array input is coerced to a `NetInput`
wrapping exactly one element with the from-array flag set to false; in both
cases the managed flag follows `manageCreatedInput`. -/
theorem c7_valid_inputs_wrap (env : String → Option MediaElement)
    (es : List RawElement) (e : RawElement) (m : Bool)
    (hne : es ≠ [])
    (hvArr : ∀ x ∈ es, validElement env x = true)
    (hno4 : isRaw4D e = false)
    (hvE : validElement env e = true) :
    toNetInput env (.arr es) m =
        .ok { content := .elements (es.map (coerceElement env)), isBatchInput := true,
              isManaged := m }
      ∧ (es.map (coerceElement env)).length = es.length
      ∧ toNetInput env (.single e) m =
        .ok { content := .elements [coerceElement env e], isBatchInput := false,
              isManaged := m } := by
  have harr : ∀ (isArr : Bool) (es' : List RawElement), es' ≠ [] →
      (∀ x ∈ es', validElement env x = true) →
      toNetInputArray env isArr es' m =
        .ok { content := .elements (es'.map (coerceElement env)), isBatchInput := isArr,
              isManaged := m } := by
    intro isArr es' hne' hv'
    apply toNetInputArray_ok env isArr es' m _ hne'
    · have hall : ∀ x ∈ es'.map (resolveInput env), ∀ i,
          checkAndReshape isArr i x = .ok (reshapeElement x) := by
        intro x hx i
        obtain ⟨a, ha, rfl⟩ := List.mem_map.mp hx
        exact checkAndReshape_ok_of_valid _ (hv' a ha) isArr i
      have := mapWithIndexM_congr_ok (checkAndReshape isArr) reshapeElement
        (es'.map (resolveInput env)) hall 0
      rw [this, List.map_map]
      rfl
    · intro x hx
      obtain ⟨a, ha, rfl⟩ := List.mem_map.mp hx
      exact reshapeElement_valid_mediaOr3D _ (hv' a ha)
  refine ⟨harr true es hne hvArr, by simp, ?_⟩
  rw [toNetInput_single_not4D env e m hno4]
  have hsingle := harr false [e] (by simp) (by
    intro x hx
    rw [List.mem_singleton] at hx
    subst hx
    exact hvE)
  simpa using hsingle

/-- Witness for C7: a two-element valid array (a media element and a rank-4
tensor of batch size 1) and a valid single media input. -/
theorem c7_valid_inputs_wrap_witness :
    (([RawElement.media ⟨0⟩, .tensor ⟨[3, 3, 3]⟩, .tensor ⟨[1, 2, 2, 3]⟩] :
        List RawElement) ≠ [])
    ∧ (∀ x ∈ ([RawElement.media ⟨0⟩, .tensor ⟨[3, 3, 3]⟩, .tensor ⟨[1, 2, 2, 3]⟩] :
        List RawElement), validElement (fun _ => none) x = true)
    ∧ isRaw4D (.media ⟨1⟩) = false
    ∧ validElement (fun _ => none) (.media ⟨1⟩) = true
    ∧ (toNetInput (fun _ => none)
          (.arr [RawElement.media ⟨0⟩, .tensor ⟨[3, 3, 3]⟩, .tensor ⟨[1, 2, 2, 3]⟩]) false =
        .ok { content := .elements
                (([RawElement.media ⟨0⟩, .tensor ⟨[3, 3, 3]⟩, .tensor ⟨[1, 2, 2, 3]⟩] :
                    List RawElement).map (coerceElement (fun _ => none))),
              isBatchInput := true, isManaged := false }
      ∧ (([RawElement.media ⟨0⟩, .tensor ⟨[3, 3, 3]⟩, .tensor ⟨[1, 2, 2, 3]⟩] :
            List RawElement).map (coerceElement (fun _ => none))).length =
          ([RawElement.media ⟨0⟩, .tensor ⟨[3, 3, 3]⟩, .tensor ⟨[1, 2, 2, 3]⟩] :
            List RawElement).length
      ∧ toNetInput (fun _ => none) (.single (.media ⟨1⟩)) false =
        .ok { content := .elements [coerceElement (fun _ => none) (.media ⟨1⟩)],
              isBatchInput := false, isManaged := false }) :=
  ⟨by decide, by decide, by decide, by decide,
    c7_valid_inputs_wrap (fun _ => none)
      [RawElement.media ⟨0⟩, .tensor ⟨[3, 3, 3]⟩, .tensor ⟨[1, 2, 2, 3]⟩]
      (.media ⟨1⟩) false (by decide) (by decide) (by decide) (by decide)⟩

/-- C4: in an array input whose element at index k resolves to a rank-4
tensor (with every earlier element passing the batch-size check), the
coercion fails with the invalid-batch-size error citing index k when the
leading dimension is not 1, and otherwise any successfully returned
`NetInput` holds, at position k, the tensor reduced to rank 3 by dropping
the leading batch axis. -/
theorem c4_batch_size_check (env : String → Option MediaElement)
    (es : List RawElement) (k : Nat) (t : Tensor) (m : Bool)
    (hk : k < es.length)
    (hraw : es.getD k .other = .tensor t)
    (h4 : t.shape.length = 4)
    (hfirst : ∀ j, j < k → noBatchError env (es.getD j .other) = true) :
    (t.shape.headD 0 ≠ 1 →
      toNetInput env (.arr es) m =
        .error (.invalidBatchSize (getIdxHint true k) (t.shape.headD 0)))
    ∧ (t.shape.headD 0 = 1 →
      ∀ n, toNetInput env (.arr es) m = .ok n →
        ∃ xs, n.content = .elements xs ∧
          xs.getD k .nullEl = .tensor ⟨t.shape.drop 1⟩)
    ∧ getIdxHint true k = " at input index " ++ toString k ++ ":" := by
  have hmapk : (es.map (resolveInput env)).getD k .nullEl = .tensor t := by
    rw [getD_map_of_lt (resolveInput env) es k .other .nullEl hk, hraw]
    rfl
  have hoks : ∀ j, j < k → ∃ y,
      checkAndReshape true (0 + j) ((es.map (resolveInput env)).getD j .nullEl) = .ok y := by
    intro j hj
    have hj' : j < es.length := lt_trans hj hk
    rw [getD_map_of_lt (resolveInput env) es j .other .nullEl hj']
    exact checkAndReshape_ok_of_noBatch _ (hfirst j hj) true (0 + j)
  refine ⟨?_, ?_, by simp [getIdxHint]⟩
  · intro hb
    have hb' : t.shape.head?.getD 0 ≠ 1 := by simpa using hb
    show toNetInputArray env true es m = _
    apply toNetInputArray_error1 env true es m _ (by
      intro h
      subst h
      simp at hk)
    apply mapWithIndexM_first_error (checkAndReshape true) (es.map (resolveInput env))
      0 k .nullEl _ (by simpa using hk) hoks
    rw [Nat.zero_add, hmapk]
    simp [checkAndReshape, h4, hb']
  · intro hb n hokn
    have hb' : t.shape.head?.getD 0 = 1 := by simpa using hb
    obtain ⟨xs, hres, hcontent⟩ := toNetInputArray_ok_inv env true es m n hokn
    refine ⟨xs, hcontent, ?_⟩
    have hget := mapWithIndexM_ok_getD _ _ 0 xs hres k (by simpa using hk) .nullEl .nullEl
    rw [Nat.zero_add, hmapk] at hget
    have hval : checkAndReshape true k (.tensor t) =
        .ok (.tensor ⟨t.shape.drop 1⟩) := by
      simp [checkAndReshape, h4, hb']
    rw [hval] at hget
    simp only [Except.ok.injEq] at hget
    exact hget.symm

/-- Witness for C4: a two-element array whose second element is a rank-4
tensor of batch size 2; coercion fails citing input index 1 and batch size
2. -/
theorem c4_batch_size_check_witness :
    (1 < ([RawElement.media ⟨0⟩, .tensor ⟨[2, 2, 2, 3]⟩] : List RawElement).length)
    ∧ ([RawElement.media ⟨0⟩, .tensor ⟨[2, 2, 2, 3]⟩] : List RawElement).getD 1 .other =
        .tensor ⟨[2, 2, 2, 3]⟩
    ∧ (Tensor.mk [2, 2, 2, 3]).shape.length = 4
    ∧ (∀ j, j < 1 → noBatchError (fun _ => none)
        (([RawElement.media ⟨0⟩, .tensor ⟨[2, 2, 2, 3]⟩] : List RawElement).getD j .other) = true)
    ∧ (((Tensor.mk [2, 2, 2, 3]).shape.headD 0 ≠ 1 →
        toNetInput (fun _ => none) (.arr [RawElement.media ⟨0⟩, .tensor ⟨[2, 2, 2, 3]⟩]) false =
          .error (.invalidBatchSize (getIdxHint true 1) ((Tensor.mk [2, 2, 2, 3]).shape.headD 0)))
      ∧ ((Tensor.mk [2, 2, 2, 3]).shape.headD 0 = 1 →
        ∀ n, toNetInput (fun _ => none) (.arr [RawElement.media ⟨0⟩, .tensor ⟨[2, 2, 2, 3]⟩]) false = .ok n →
          ∃ xs, n.content = .elements xs ∧
            xs.getD 1 .nullEl = .tensor ⟨(Tensor.mk [2, 2, 2, 3]).shape.drop 1⟩)
      ∧ getIdxHint true 1 = " at input index " ++ toString 1 ++ ":") :=
  ⟨by decide, by decide, by decide, by decide,
    c4_batch_size_check (fun _ => none) [RawElement.media ⟨0⟩, .tensor ⟨[2, 2, 2, 3]⟩]
      1 ⟨[2, 2, 2, 3]⟩ false (by decide) (by decide) (by decide) (by decide)⟩

/-- C5: when the element at index k of an array input is, after resolution
and batch-axis reduction, neither media-like nor a rank-3 tensor (and all
earlier elements pass the type check), the coercion fails with the
unresolved-identifier error when the original element was a string and with
the generic type error otherwise; the same holds for a single non-array
input, and the index hint of the error is present exactly when the input was an
array. -/
theorem c5_type_mismatch_error (env : String → Option MediaElement)
    (es : List RawElement) (k : Nat) (xs : List ResolvedElement)
    (e : RawElement) (m : Bool)
    (hres : mapWithIndexM (checkAndReshape true) 0 (es.map (resolveInput env)) = .ok xs)
    (hk : k < es.length)
    (hbm : isMediaElement (xs.getD k .nullEl) = false)
    (hb3 : isTensor3D (xs.getD k .nullEl) = false)
    (hfirst : ∀ j, j < k →
      (isMediaElement (xs.getD j .nullEl) || isTensor3D (xs.getD j .nullEl)) = true)
    (hno4 : isRaw4D e = false)
    (hbmE : isMediaElement (resolveInput env e) = false)
    (hb3E : isTensor3D (resolveInput env e) = false) :
    toNetInput env (.arr es) m = .error (typeErrorFor true k (es.getD k .other))
    ∧ toNetInput env (.single e) m = .error (typeErrorFor false 0 e)
    ∧ getIdxHint true k = " at input index " ++ toString k ++ ":"
    ∧ getIdxHint false 0 = "" := by
  have hne : es ≠ [] := by
    intro h
    subst h
    simp at hk
  have hlen : xs.length = es.length := by
    have := mapWithIndexM_ok_length _ _ 0 xs hres
    simpa using this
  refine ⟨?_, ?_, by simp [getIdxHint], by simp [getIdxHint]⟩
  · show toNetInputArray env true es m = _
    apply toNetInputArray_error2 env true es m xs _ hne hres
    apply mapWithIndexM_first_error (typeCheck true es) xs 0 k .nullEl _ (by omega)
    · intro j hj
      exact ⟨(), typeCheck_ok true es (0 + j) _ (hfirst j hj)⟩
    · rw [Nat.zero_add]
      exact typeCheck_error true es k _ hbm hb3
  · rw [toNetInput_single_not4D env e m hno4]
    apply toNetInputArray_error2 env false [e] m [resolveInput env e] _ (by simp)
    · have h1 : checkAndReshape false 0 (resolveInput env e) = .ok (resolveInput env e) :=
        checkAndReshape_not4D _ (isTensor4D_resolve_of_not4D env e hno4) false 0
      simp [mapWithIndexM, h1]
    · have h2 := typeCheck_error false [e] 0 (resolveInput env e) hbmE hb3E
      simp only [List.getD] at h2
      simp [mapWithIndexM, h2]

/-- Witness for C5: an array whose second element is an unresolvable string
identifier, and a single unsupported (non-media, non-tensor) input. -/
theorem c5_type_mismatch_error_witness :
    (mapWithIndexM (checkAndReshape true) 0
        (([RawElement.media ⟨0⟩, .str "nope"] : List RawElement).map
          (resolveInput (fun _ => none))) = .ok [.media ⟨0⟩, .nullEl])
    ∧ (1 < ([RawElement.media ⟨0⟩, .str "nope"] : List RawElement).length)
    ∧ isMediaElement (([ResolvedElement.media ⟨0⟩, .nullEl] : List ResolvedElement).getD 1 .nullEl) = false
    ∧ isTensor3D (([ResolvedElement.media ⟨0⟩, .nullEl] : List ResolvedElement).getD 1 .nullEl) = false
    ∧ (∀ j, j < 1 →
        (isMediaElement (([ResolvedElement.media ⟨0⟩, .nullEl] : List ResolvedElement).getD j .nullEl)
          || isTensor3D (([ResolvedElement.media ⟨0⟩, .nullEl] : List ResolvedElement).getD j .nullEl)) = true)
    ∧ isRaw4D .other = false
    ∧ isMediaElement (resolveInput (fun _ => none) .other) = false
    ∧ isTensor3D (resolveInput (fun _ => none) .other) = false
    ∧ (toNetInput (fun _ => none) (.arr [RawElement.media ⟨0⟩, .str "nope"]) true =
        .error (typeErrorFor true 1
          (([RawElement.media ⟨0⟩, .str "nope"] : List RawElement).getD 1 .other))
      ∧ toNetInput (fun _ => none) (.single .other) true =
        .error (typeErrorFor false 0 .other)
      ∧ getIdxHint true 1 = " at input index " ++ toString 1 ++ ":"
      ∧ getIdxHint false 0 = "") :=
  ⟨rfl, by decide, by decide, by decide, by decide, by decide, by decide, by decide,
    c5_type_mismatch_error (fun _ => none) [RawElement.media ⟨0⟩, .str "nope"] 1
      [.media ⟨0⟩, .nullEl] .other true rfl (by decide) (by decide) (by decide)
      (by decide) (by decide) (by decide) (by decide)⟩

/-- C9: there is an execution in which the landmark stage fails after the raw
crop tensors were allocated, and the trace of the pipeline then contains the
allocation but no dispose event at all: disposal occurs only on the success
path. -/
theorem c9_failure_leaks_crops :
    @allFaces Unit Unit
      (fun _ _ => .ok [{ score := 1, box := { x := 0, y := 0, width := 1, height := 1 } }])
      (fun _ => .error ())
      (fun _ => .ok default)
      (fun _ b => b) () 0 =
    ([TensorEvent.stageDone .detect, TensorEvent.alloc 0], .error ()) := rfl

theorem mem_insertDesc (d x : FaceDetection) (l : List FaceDetection) :
    x ∈ insertDesc d l ↔ x = d ∨ x ∈ l := by
  induction l with
  | nil => simp [insertDesc]
  | cons y ys ih =>
    simp only [insertDesc]
    split_ifs with h
    · simp [List.mem_cons]
    · simp only [List.mem_cons, ih]
      tauto

theorem insertDesc_perm (d : FaceDetection) (l : List FaceDetection) :
    (insertDesc d l).Perm (d :: l) := by
  induction l with
  | nil => exact List.Perm.refl _
  | cons y ys ih =>
    simp only [insertDesc]
    split_ifs with h
    · exact List.Perm.refl _
    · exact (List.Perm.cons y ih).trans (List.Perm.swap d y ys)

theorem sortDesc_perm (l : List FaceDetection) : (sortDesc l).Perm l := by
  induction l with
  | nil => exact List.Perm.refl _
  | cons x xs ih =>
    exact (insertDesc_perm x (sortDesc xs)).trans (List.Perm.cons x ih)

theorem insertDesc_pairwise_sorted (d : FaceDetection) (l : List FaceDetection)
    (h : l.Pairwise (fun a b => b.score ≤ a.score)) :
    (insertDesc d l).Pairwise (fun a b => b.score ≤ a.score) := by
  induction l with
  | nil => simp [insertDesc]
  | cons y ys ih =>
    rcases List.pairwise_cons.mp h with ⟨hy, hys⟩
    simp only [insertDesc]
    split_ifs with hc
    · refine List.pairwise_cons.mpr ⟨?_, h⟩
      intro z hz
      rcases List.mem_cons.mp hz with rfl | hz'
      · exact hc
      · exact le_trans (hy z hz') hc
    · refine List.pairwise_cons.mpr ⟨?_, ih hys⟩
      intro z hz
      rcases (mem_insertDesc d z ys).mp hz with rfl | hz'
      · exact le_of_lt (lt_of_not_ge hc)
      · exact hy z hz'

theorem sortDesc_sorted (l : List FaceDetection) :
    (sortDesc l).Pairwise (fun a b => b.score ≤ a.score) := by
  induction l with
  | nil => exact List.Pairwise.nil
  | cons x xs ih => exact insertDesc_pairwise_sorted x (sortDesc xs) ih

theorem insertDesc_pairwise_stable (Q : FaceDetection → FaceDetection → Prop)
    (d : FaceDetection) (l : List FaceDetection)
    (hl : l.Pairwise (fun a b => b.score < a.score ∨ Q a b))
    (hQ : ∀ y ∈ l, Q d y) :
    (insertDesc d l).Pairwise (fun a b => b.score < a.score ∨ Q a b) := by
  induction l with
  | nil => simp [insertDesc]
  | cons y ys ih =>
    rcases List.pairwise_cons.mp hl with ⟨hy, hys⟩
    simp only [insertDesc]
    split_ifs with hc
    · refine List.pairwise_cons.mpr ⟨?_, hl⟩
      intro z hz
      exact Or.inr (hQ z hz)
    · refine List.pairwise_cons.mpr
        ⟨?_, ih hys (fun z hz => hQ z (List.mem_cons_of_mem y hz))⟩
      intro z hz
      rcases (mem_insertDesc d z ys).mp hz with rfl | hz'
      · exact Or.inl (lt_of_not_ge hc)
      · exact hy z hz'

theorem sortDesc_pairwise_stable (Q : FaceDetection → FaceDetection → Prop)
    (l : List FaceDetection) (hl : l.Pairwise Q) :
    (sortDesc l).Pairwise (fun a b => b.score < a.score ∨ Q a b) := by
  induction l with
  | nil => exact List.Pairwise.nil
  | cons x xs ih =>
    rcases List.pairwise_cons.mp hl with ⟨hx, hxs⟩
    refine insertDesc_pairwise_stable Q x (sortDesc xs) (ih hxs) ?_
    intro y hy
    exact hx y ((sortDesc_perm xs).mem_iff.mp hy)

/-- C1: when every stage succeeds, the pipeline returns exactly one
`FullFaceDescription` per detection returned by the detector, in the same
order, the i-th combining detections[i], the i-th landmark set shifted by
the box of detections[i], and the i-th descriptor — which is the recognizer
output on the i-th aligned crop. -/
theorem c1_pipeline_index_alignment (locateFaces : ι → ℚ → Except ε (List FaceDetection))
    (detectLandmarks : List (FaceTensor ι) → Except ε (List FaceLandmarks))
    (computeFaceDescriptor : FaceTensor ι → Except ε Descriptor)
    (align : FaceLandmarks → Rect → Rect)
    (input : ι) (minConfidence : ℚ)
    (detections : List FaceDetection) (lms : List FaceLandmarks) (descs : List Descriptor)
    (hdet : locateFaces input minConfidence = .ok detections)
    (hlm : detectLandmarks (rawCrops input detections) = .ok lms)
    (hlen : lms.length = detections.length)
    (hdesc : mapMExcept computeFaceDescriptor (alignedCrops align input detections lms) =
      .ok descs) :
    (allFaces locateFaces detectLandmarks computeFaceDescriptor align input minConfidence).2 =
        .ok (mapWithIndex (fun i detection =>
          { detection := detection
            landmarks := (lms.getD i default).shiftByPoint detection.getBox
            descriptor := descs.getD i default }) detections)
      ∧ (∀ res, (allFaces locateFaces detectLandmarks computeFaceDescriptor align input
            minConfidence).2 = .ok res →
          res.length = detections.length
          ∧ ∀ i, i < detections.length → res.getD i default =
              { detection := detections.getD i default
                landmarks := (lms.getD i default).shiftByPoint
                  (detections.getD i default).getBox
                descriptor := descs.getD i default })
      ∧ (alignedCrops align input detections lms).length = detections.length
      ∧ descs.length = detections.length
      ∧ (∀ i, i < detections.length →
          computeFaceDescriptor ((alignedCrops align input detections lms).getD i
            ⟨0, input, default⟩) = .ok (descs.getD i default)) := by
  have heq := allFaces_ok locateFaces detectLandmarks computeFaceDescriptor align input
    minConfidence detections lms descs hdet hlm hdesc
  have hACLen : (alignedCrops align input detections lms).length = detections.length := by
    rw [alignedCrops, extractFaceTensors_length, alignedBoxes, mapWithIndex_length, hlen]
  have hdescLen : descs.length = detections.length := by
    have := mapMExcept_ok_length _ _ descs hdesc
    rw [this, hACLen]
  refine ⟨?_, ?_, hACLen, hdescLen, ?_⟩
  · rw [heq]
  · intro res hres
    rw [heq] at hres
    simp only [Except.ok.injEq] at hres
    subst hres
    refine ⟨mapWithIndex_length _ _, ?_⟩
    intro i hi
    rw [mapWithIndex_getD _ detections i default default hi]
  · intro i hi
    have hk : i < (alignedCrops align input detections lms).length := by
      rw [hACLen]
      exact hi
    exact mapMExcept_ok_getD _ _ descs hdesc i hk ⟨0, input, default⟩ default

/-- Witness for C1: a one-detection pipeline run with concrete mock
networks; all stage hypotheses hold by computation. -/
theorem c1_pipeline_index_alignment_witness :
    (wLocate () 0 = .ok wDetections)
    ∧ (wLandmark (rawCrops () wDetections) = .ok wLms)
    ∧ (wLms.length = wDetections.length)
    ∧ (mapMExcept wDescriptor (alignedCrops wAlign () wDetections wLms) = .ok wDescs)
    ∧ ((allFaces wLocate wLandmark wDescriptor wAlign () 0).2 =
        .ok (mapWithIndex (fun i detection =>
          { detection := detection
            landmarks := (wLms.getD i default).shiftByPoint detection.getBox
            descriptor := wDescs.getD i default }) wDetections)
      ∧ (∀ res, (allFaces wLocate wLandmark wDescriptor wAlign () 0).2 = .ok res →
          res.length = wDetections.length
          ∧ ∀ i, i < wDetections.length → res.getD i default =
              { detection := wDetections.getD i default
                landmarks := (wLms.getD i default).shiftByPoint
                  (wDetections.getD i default).getBox
                descriptor := wDescs.getD i default })
      ∧ (alignedCrops wAlign () wDetections wLms).length = wDetections.length
      ∧ wDescs.length = wDetections.length
      ∧ (∀ i, i < wDetections.length →
          wDescriptor ((alignedCrops wAlign () wDetections wLms).getD i
            ⟨0, (), default⟩) = .ok (wDescs.getD i default))) :=
  ⟨rfl, rfl, rfl, rfl,
    c1_pipeline_index_alignment wLocate wLandmark wDescriptor wAlign () 0
      wDetections wLms wDescs rfl rfl rfl rfl⟩

/-- C8: on a successful run, the tensor trace of the pipeline is exactly: detect
completes, raw crops allocated, landmark stage completes, every raw crop
disposed, aligned crops allocated, recognizer stage completes, every aligned
crop disposed — so every intermediate crop allocation has exactly one
matching release, and no crop is allocated twice. -/
theorem c8_crops_released_exactly_once (locateFaces : ι → ℚ → Except ε (List FaceDetection))
    (detectLandmarks : List (FaceTensor ι) → Except ε (List FaceLandmarks))
    (computeFaceDescriptor : FaceTensor ι → Except ε Descriptor)
    (align : FaceLandmarks → Rect → Rect)
    (input : ι) (minConfidence : ℚ)
    (detections : List FaceDetection) (lms : List FaceLandmarks) (descs : List Descriptor)
    (hdet : locateFaces input minConfidence = .ok detections)
    (hlm : detectLandmarks (rawCrops input detections) = .ok lms)
    (hdesc : mapMExcept computeFaceDescriptor (alignedCrops align input detections lms) =
      .ok descs) :
    (allFaces locateFaces detectLandmarks computeFaceDescriptor align input minConfidence).1 =
        TensorEvent.stageDone .detect ::
          ((rawCrops input detections).map (fun t => TensorEvent.alloc t.id) ++
            TensorEvent.stageDone .landmark ::
              ((rawCrops input detections).map (fun t => TensorEvent.dispose t.id) ++
                ((alignedCrops align input detections lms).map
                    (fun t => TensorEvent.alloc t.id) ++
                  TensorEvent.stageDone .recognize ::
                    (alignedCrops align input detections lms).map
                      (fun t => TensorEvent.dispose t.id))))
      ∧ (∀ j, ((allFaces locateFaces detectLandmarks computeFaceDescriptor align input
            minConfidence).1).count (TensorEvent.alloc j) =
          ((allFaces locateFaces detectLandmarks computeFaceDescriptor align input
            minConfidence).1).count (TensorEvent.dispose j))
      ∧ (∀ j, ((allFaces locateFaces detectLandmarks computeFaceDescriptor align input
            minConfidence).1).count (TensorEvent.alloc j) ≤ 1) := by
  have heq := allFaces_ok locateFaces detectLandmarks computeFaceDescriptor align input
    minConfidence detections lms descs hdet hlm hdesc
  have htr : (allFaces locateFaces detectLandmarks computeFaceDescriptor align input
      minConfidence).1 =
      TensorEvent.stageDone .detect ::
        ((rawCrops input detections).map (fun t => TensorEvent.alloc t.id) ++
          TensorEvent.stageDone .landmark ::
            ((rawCrops input detections).map (fun t => TensorEvent.dispose t.id) ++
              ((alignedCrops align input detections lms).map
                  (fun t => TensorEvent.alloc t.id) ++
                TensorEvent.stageDone .recognize ::
                  (alignedCrops align input detections lms).map
                    (fun t => TensorEvent.dispose t.id)))) := by
    rw [heq]
  refine ⟨htr, ?_, ?_⟩
  · intro j
    rw [htr]
    simp [List.count_append, List.count_cons, count_allocs_of_map, count_disposes_of_map,
      count_alloc_in_disposes, count_dispose_in_allocs]
  · intro j
    rw [htr]
    simp [List.count_append, List.count_cons, count_allocs_of_map, count_disposes_of_map,
      count_alloc_in_disposes, count_dispose_in_allocs]
    have h1 : ((rawCrops input detections).map FaceTensor.id).count j =
        if 0 ≤ j ∧ j < 0 + (detections.map FaceDetection.getBox).length then 1 else 0 :=
      count_ids_extract input (detections.map FaceDetection.getBox) 0 j
    have h2 : ((alignedCrops align input detections lms).map FaceTensor.id).count j =
        if (rawCrops input detections).length ≤ j ∧
            j < (rawCrops input detections).length +
              (alignedBoxes align detections lms).length then 1 else 0 :=
      count_ids_extract input (alignedBoxes align detections lms)
        (rawCrops input detections).length j
    have hn : (rawCrops input detections).length =
        (detections.map FaceDetection.getBox).length :=
      extractFaceTensors_length input (detections.map FaceDetection.getBox) 0
    rw [h1, h2]
    split_ifs <;> omega

/-- Witness for C8: the one-detection concrete run; the trace has the exact
alloc/dispose shape and balanced counts. -/
theorem c8_crops_released_exactly_once_witness :
    (wLocate () 0 = .ok wDetections)
    ∧ (wLandmark (rawCrops () wDetections) = .ok wLms)
    ∧ (mapMExcept wDescriptor (alignedCrops wAlign () wDetections wLms) = .ok wDescs)
    ∧ ((allFaces wLocate wLandmark wDescriptor wAlign () 0).1 =
        TensorEvent.stageDone .detect ::
          ((rawCrops () wDetections).map (fun t => TensorEvent.alloc t.id) ++
            TensorEvent.stageDone .landmark ::
              ((rawCrops () wDetections).map (fun t => TensorEvent.dispose t.id) ++
                ((alignedCrops wAlign () wDetections wLms).map
                    (fun t => TensorEvent.alloc t.id) ++
                  TensorEvent.stageDone .recognize ::
                    (alignedCrops wAlign () wDetections wLms).map
                      (fun t => TensorEvent.dispose t.id))))
      ∧ (∀ j, ((allFaces wLocate wLandmark wDescriptor wAlign () 0).1).count
            (TensorEvent.alloc j) =
          ((allFaces wLocate wLandmark wDescriptor wAlign () 0).1).count
            (TensorEvent.dispose j))
      ∧ (∀ j, ((allFaces wLocate wLandmark wDescriptor wAlign () 0).1).count
            (TensorEvent.alloc j) ≤ 1)) :=
  ⟨rfl, rfl, rfl,
    c8_crops_released_exactly_once wLocate wLandmark wDescriptor wAlign () 0
      wDetections wLms wDescs rfl rfl rfl⟩

/-- C2 counterexample: the function returned by `allFacesFactory` declares
only `input` and `minConfidence`, so a third `maxResults` argument is
ignored: with a detector returning two detections and `maxResults = 1`, the
pipeline still returns two results, not at most one. -/
theorem c2_maxresults_ignored_counterexample :
    (allFacesWithMaxResults w2Locate w2Landmark wDescriptor wAlign () 0 (some 1)).2.map
        List.length = .ok 2
    ∧ ¬(2 ≤ 1) := ⟨rfl, by decide⟩

/-- C2 (amended): the full-pipeline entry point takes no `maxResults`
parameter — a third argument does not change the result — while the
detector method `locateFaces` itself (modelled from the spec) takes the
optional `maxResults` and returns the candidates filtered by the
minimum-confidence threshold, sorted by descending confidence with
input-order tie-break, and truncated to `maxResults` when provided. -/
theorem c2_maxresults_in_detector (locateFaces : ι → ℚ → Except ε (List FaceDetection))
    (detectLandmarks : List (FaceTensor ι) → Except ε (List FaceLandmarks))
    (computeFaceDescriptor : FaceTensor ι → Except ε Descriptor)
    (align : FaceLandmarks → Rect → Rect)
    (input : ι) (minConfidence : ℚ) (mr : Option Nat)
    (candidates : List FaceDetection) (k : Nat)
    (Q : FaceDetection → FaceDetection → Prop)
    (hQ : candidates.Pairwise Q) :
    allFacesWithMaxResults locateFaces detectLandmarks computeFaceDescriptor align input
        minConfidence mr =
      allFaces locateFaces detectLandmarks computeFaceDescriptor align input minConfidence
    ∧ (locateFacesModel candidates minConfidence mr).Pairwise
        (fun a b => b.score ≤ a.score)
    ∧ (locateFacesModel candidates minConfidence mr).Pairwise
        (fun a b => b.score < a.score ∨ Q a b)
    ∧ (locateFacesModel candidates minConfidence (some k)).length ≤ k
    ∧ (∀ d ∈ locateFacesModel candidates minConfidence mr, minConfidence ≤ d.score)
    ∧ (locateFacesModel candidates minConfidence none).Perm
        (candidates.filter (fun d => minConfidence ≤ d.score)) := by
  have hsub : ∀ mr' : Option Nat, (locateFacesModel candidates minConfidence mr').Sublist
      (sortDesc (candidates.filter (fun d => minConfidence ≤ d.score))) := by
    intro mr'
    cases mr' with
    | none => exact List.Sublist.refl _
    | some j => exact List.take_sublist j _
  refine ⟨rfl, ?_, ?_, ?_, ?_, ?_⟩
  · exact List.Pairwise.sublist (hsub mr) (sortDesc_sorted _)
  · have hQf : (candidates.filter (fun d => minConfidence ≤ d.score)).Pairwise Q :=
      List.Pairwise.sublist (List.filter_sublist candidates) hQ
    exact List.Pairwise.sublist (hsub mr) (sortDesc_pairwise_stable Q _ hQf)
  · have hlen : (locateFacesModel candidates minConfidence (some k)).length =
        min k (sortDesc (candidates.filter (fun d => minConfidence ≤ d.score))).length := by
      simp [locateFacesModel, List.length_take]
    omega
  · intro d hd
    have hmem := (sortDesc_perm _).mem_iff.mp ((hsub mr).subset hd)
    rcases List.mem_filter.mp hmem with ⟨_, hdec⟩
    exact of_decide_eq_true hdec
  · exact sortDesc_perm _

/-- Witness for C2 (amended): three candidates with a tie at confidence 1;
`Q` is their input order (strictly increasing box x-coordinate). -/
theorem c2_maxresults_in_detector_witness :
    ([{ score := 1, box := { x := 0, y := 0, width := 0, height := 0 } },
      { score := 2, box := { x := 1, y := 0, width := 0, height := 0 } },
      { score := 1, box := { x := 2, y := 0, width := 0, height := 0 } }] :
        List FaceDetection).Pairwise (fun a b => a.box.x < b.box.x)
    ∧ (allFacesWithMaxResults wLocate wLandmark wDescriptor wAlign () 1 (some 2) =
        allFaces wLocate wLandmark wDescriptor wAlign () 1
      ∧ (locateFacesModel
          [{ score := 1, box := { x := 0, y := 0, width := 0, height := 0 } },
           { score := 2, box := { x := 1, y := 0, width := 0, height := 0 } },
           { score := 1, box := { x := 2, y := 0, width := 0, height := 0 } }] 1
          (some 2)).Pairwise (fun a b => b.score ≤ a.score)
      ∧ (locateFacesModel
          [{ score := 1, box := { x := 0, y := 0, width := 0, height := 0 } },
           { score := 2, box := { x := 1, y := 0, width := 0, height := 0 } },
           { score := 1, box := { x := 2, y := 0, width := 0, height := 0 } }] 1
          (some 2)).Pairwise (fun a b => b.score < a.score ∨ a.box.x < b.box.x)
      ∧ (locateFacesModel
          [{ score := 1, box := { x := 0, y := 0, width := 0, height := 0 } },
           { score := 2, box := { x := 1, y := 0, width := 0, height := 0 } },
           { score := 1, box := { x := 2, y := 0, width := 0, height := 0 } }] 1
          (some 2)).length ≤ 2
      ∧ (∀ d ∈ locateFacesModel
          [{ score := 1, box := { x := 0, y := 0, width := 0, height := 0 } },
           { score := 2, box := { x := 1, y := 0, width := 0, height := 0 } },
           { score := 1, box := { x := 2, y := 0, width := 0, height := 0 } }] 1
          (some 2), (1 : ℚ) ≤ d.score)
      ∧ (locateFacesModel
          [{ score := 1, box := { x := 0, y := 0, width := 0, height := 0 } },
           { score := 2, box := { x := 1, y := 0, width := 0, height := 0 } },
           { score := 1, box := { x := 2, y := 0, width := 0, height := 0 } }] 1
          none).Perm
          (([{ score := 1, box := { x := 0, y := 0, width := 0, height := 0 } },
             { score := 2, box := { x := 1, y := 0, width := 0, height := 0 } },
             { score := 1, box := { x := 2, y := 0, width := 0, height := 0 } }] :
              List FaceDetection).filter (fun d => (1 : ℚ) ≤ d.score))) :=
  ⟨by decide,
    c2_maxresults_in_detector wLocate wLandmark wDescriptor wAlign () 1 (some 2)
      [{ score := 1, box := { x := 0, y := 0, width := 0, height := 0 } },
       { score := 2, box := { x := 1, y := 0, width := 0, height := 0 } },
       { score := 1, box := { x := 2, y := 0, width := 0, height := 0 } }] 2
      (fun a b => a.box.x < b.box.x) (by decide)⟩

end FaceApi
